import Mathlib

/-!
Verification of the Mantra AI affect-fusion and recommendation core.

The definitions below are a shallow embedding of the Python sources:
`recommend.py` (the `EmpatheticRecommender` tables and methods and the
module-level feedback helpers), `text_sentiment.py`
(`combine_emotion_and_sentiment`, `interpret_combined_analysis`),
`emotion_detector.py` (`map_facial_to_text_emotion`) and the alignment
computation of the `comprehensive_analysis` endpoint in `main.py`.
Python floats are modelled as rationals, dictionaries as association
lists, and the implicit global random source as an injected seed
(`random.choice l` becomes indexing by `seed % l.length`,
`random.sample l k` becomes taking `k` entries of a rotation of `l`).
-/

/-- One row of `EmpatheticRecommender.emotion_responses`. -/
structure EmotionResponse where
  acknowledgment : List String
  learning_tip : List String
  activity : List String
deriving DecidableEq

/-- The `joy` row of `_load_emotion_responses`. -/
def joy_responses : EmotionResponse :=
  { acknowledgment :=
      ["I\'m glad to see you\'re in such a positive mood! 😊",
       "Your enthusiasm is wonderful! ✨",
       "Love seeing your positive energy! 🌟"],
    learning_tip :=
      ["This is a great time to tackle challenging topics!",
       "Your positive mindset will help you learn faster.",
       "Channel this energy into creative problem-solving!"],
    activity :=
      ["Try learning something new and exciting",
       "Work on a project you\'re passionate about",
       "Share your knowledge with others"] }

/-- The `sadness` row of `_load_emotion_responses`. -/
def sadness_responses : EmotionResponse :=
  { acknowledgment :=
      ["I notice you might be feeling down. That\'s okay. 💙",
       "It\'s alright to feel sad sometimes. I\'m here for you.",
       "Your feelings are valid. Take your time. 🫂"],
    learning_tip :=
      ["Start with something simple and rewarding today.",
       "Small progress is still progress. Be gentle with yourself.",
       "Focus on topics that usually bring you comfort."],
    activity :=
      ["Take a break and do something you enjoy",
       "Connect with a friend or loved one",
       "Practice self-compassion exercises"] }

/-- The `anger` row of `_load_emotion_responses`. -/
def anger_responses : EmotionResponse :=
  { acknowledgment :=
      ["I sense some frustration. Let\'s work through this together.",
       "It\'s okay to feel angry. Let\'s channel it productively.",
       "Your feelings matter. Let\'s find a constructive outlet."],
    learning_tip :=
      ["Take a short break before continuing your studies.",
       "Physical activity might help clear your mind first.",
       "Break down complex problems into manageable steps."],
    activity :=
      ["Try a quick breathing exercise (4-7-8 technique)",
       "Go for a brief walk or do some stretches",
       "Write down what\'s bothering you to process it"] }

/-- The `fear` row of `_load_emotion_responses`. -/
def fear_responses : EmotionResponse :=
  { acknowledgment :=
      ["I understand you might be feeling anxious or worried.",
       "Fear is natural. Let\'s take this step by step. 🤝",
       "You\'re not alone in feeling this way."],
    learning_tip :=
      ["Start with familiar topics to build confidence.",
       "Break your goals into very small, achievable steps.",
       "Remember past challenges you\'ve successfully overcome."],
    activity :=
      ["Practice grounding techniques (5-4-3-2-1 method)",
       "List three things you\'ve accomplished recently",
       "Reach out to your support network"] }

/-- The `surprise` row of `_load_emotion_responses`. -/
def surprise_responses : EmotionResponse :=
  { acknowledgment :=
      ["Something unexpected? I\'m here to help! ⚡",
       "Surprises can be great learning opportunities!",
       "Embrace the unexpected! 🎉"],
    learning_tip :=
      ["This is perfect for exploring new perspectives!",
       "Use your curiosity to dive deeper into topics.",
       "Unexpected moments often lead to breakthroughs."],
    activity :=
      ["Explore a related topic you haven\'t considered",
       "Ask \'why\' and \'what if\' questions",
       "Document your discoveries"] }

/-- The `love` row of `_load_emotion_responses`. -/
def love_responses : EmotionResponse :=
  { acknowledgment :=
      ["Your warmth and positivity shine through! ❤️",
       "That\'s beautiful! Love is a powerful motivator.",
       "Your caring nature is wonderful! 💖"],
    learning_tip :=
      ["Your passion will fuel deep understanding.",
       "Connect your learning to what you care about.",
       "Share your enthusiasm with others!"],
    activity :=
      ["Mentor someone or share your knowledge",
       "Create something meaningful",
       "Express gratitude for your learning journey"] }

/-- The `neutral` row of `_load_emotion_responses`. -/
def neutral_responses : EmotionResponse :=
  { acknowledgment :=
      ["You seem calm and centered. Good place to start! 👍",
       "A neutral state is perfect for focused learning.",
       "Great mindset for tackling tasks!"],
    learning_tip :=
      ["This is ideal for complex problem-solving.",
       "Your focus will serve you well today.",
       "Maintain this balanced approach."],
    activity :=
      ["Dive into your most important tasks",
       "Practice deep work techniques",
       "Set clear, achievable goals"] }

/-- The `disgust` row of `_load_emotion_responses`. -/
def disgust_responses : EmotionResponse :=
  { acknowledgment :=
      ["Something doesn\'t feel right? Let\'s address it.",
       "I understand that reaction. Let\'s reframe this.",
       "Your instincts are telling you something."],
    learning_tip :=
      ["Sometimes resistance reveals important insights.",
       "Try approaching the topic from a different angle.",
       "Focus on why this matters in the bigger picture."],
    activity :=
      ["Take a brief pause to reset",
       "Find a more engaging resource on the topic",
       "Connect the material to your interests"] }

/-- The dictionary returned by `_load_emotion_responses`, as an association list. -/
def emotion_responses : List (String × EmotionResponse) :=
  [("joy", joy_responses), ("sadness", sadness_responses),
   ("anger", anger_responses), ("fear", fear_responses),
   ("surprise", surprise_responses), ("love", love_responses),
   ("neutral", neutral_responses), ("disgust", disgust_responses)]

/-- The `low_stress` pool of `_load_learning_strategies`. -/
def low_stress_strategies : List String :=
  ["🎯 Set ambitious learning goals for today",
   "📚 Tackle that challenging concept you\'ve been avoiding",
   "🧠 Practice active recall and spaced repetition",
   "🤝 Teach someone else what you\'re learning",
   "🔬 Experiment with advanced applications"]

/-- The `moderate_stress` pool of `_load_learning_strategies`. -/
def moderate_stress_strategies : List String :=
  ["📝 Break your study session into 25-minute intervals (Pomodoro)",
   "🎵 Add background music or white noise if helpful",
   "✅ Focus on one topic at a time",
   "🔄 Review what you already know before new material",
   "💡 Use visual aids and diagrams to simplify concepts"]

/-- The `high_stress` pool of `_load_learning_strategies`. -/
def high_stress_strategies : List String :=
  ["⏸️ Take a 10-minute break before continuing",
   "🌱 Start with the easiest task to build momentum",
   "📋 Make a simple checklist to reduce overwhelm",
   "🧘 Try a 2-minute mindfulness exercise",
   "👥 Consider studying with a supportive peer"]

/-- The `optimal_flow` pool of `_load_learning_strategies`. -/
def optimal_flow_strategies : List String :=
  ["🌊 You\'re in the flow state - keep going!",
   "⚡ Channel this energy into your most important work",
   "🎨 This is perfect for creative problem-solving",
   "🚀 Push your boundaries while you\'re in this zone",
   "📈 Build on this momentum for maximum progress"]

/-- The dictionary returned by `_load_learning_strategies`, as an association list. -/
def learning_strategies : List (String × List String) :=
  [("low_stress", low_stress_strategies),
   ("moderate_stress", moderate_stress_strategies),
   ("high_stress", high_stress_strategies),
   ("optimal_flow", optimal_flow_strategies)]

/-- The list returned by `_load_motivational_quotes`. -/
def motivational_quotes : List String :=
  ["Every expert was once a beginner. Keep going! 💪",
   "Progress, not perfection. You\'re doing great! 🌟",
   "Your brain is like a muscle - the more you use it, the stronger it gets! 🧠",
   "Mistakes are proof that you\'re trying. Keep learning! 📚",
   "The only way to do great work is to love what you do. 💙",
   "Small daily improvements lead to stunning results. ✨",
   "You are capable of amazing things! 🌈",
   "Learning is a journey, not a destination. Enjoy the process! 🛤️",
   "Believe in yourself. You\'ve overcome challenges before! 💫",
   "Your potential is limitless. Keep pushing forward! 🚀"]

/-- Deterministic model of `random.choice`: the global random source is
replaced by an injected seed that indexes into the pool. -/
def choice (l : List String) (seed : Nat) : String :=
  l.getD (seed % l.length) ""

/-- Deterministic model of `random.sample l k`: the injected seed picks a
rotation of the pool and the first `k` entries of it are returned, so the
result has length `min k l.length` and draws only from `l`. -/
def sample (l : List String) (k seed : Nat) : List String :=
  (l.drop (seed % l.length) ++ l.take (seed % l.length)).take k

/-- Python `str.lower`, written on the underlying character list so that
it is structurally computable. -/
def str_lower (s : String) : String := ⟨s.data.map Char.toLower⟩

/-- The study-plan dictionary `plans` of `_generate_study_plan`. -/
structure StudyPlan where
  duration : String
  approach : String
  breaks : String
  recommendation : String
deriving DecidableEq

/-- The four curated `(emotion, stress_level)` entries of the `plans`
dictionary in `_generate_study_plan`, as an association list. -/
def study_plans : List ((String × String) × StudyPlan) :=
  [(("joy", "low"),
    { duration := "45-60 minutes",
      approach := "Intensive deep work",
      breaks := "Every 45 minutes",
      recommendation := "Perfect time for challenging material!" }),
   (("sadness", "high"),
    { duration := "15-20 minutes",
      approach := "Gentle review of familiar topics",
      breaks := "Frequent, every 15 minutes",
      recommendation := "Be kind to yourself. Small steps count." }),
   (("anger", "high"),
    { duration := "10 minutes after calming",
      approach := "Physical activity first, then study",
      breaks := "Take breaks when needed",
      recommendation := "Reset your mind before diving in." }),
   (("fear", "moderate"),
    { duration := "25-30 minutes",
      approach := "Start with confidence-building review",
      breaks := "Every 25 minutes",
      recommendation := "Build momentum with what you know." })]

/-- The default moderate plan returned by `_generate_study_plan` on a miss. -/
def default_study_plan : StudyPlan :=
  { duration := "30-40 minutes",
    approach := "Balanced focus with regular breaks",
    breaks := "Every 30 minutes",
    recommendation := "Maintain a steady, sustainable pace." }

/-- `EmpatheticRecommender._generate_study_plan`. -/
def generate_study_plan (emotion stress_level : String) : StudyPlan :=
  (study_plans.lookup (emotion, stress_level)).getD default_study_plan

/-- `EmpatheticRecommender._get_confidence_note`. -/
def get_confidence_note (confidence : ℚ) : String :=
  if confidence ≥ 0.8 then
    "I\'m very confident about this assessment."
  else if confidence ≥ 0.6 then
    "This assessment seems reliable."
  else if confidence ≥ 0.4 then
    "This is my best estimate - let me know if it feels off."
  else
    "I\'m somewhat uncertain - please provide more context if needed."

/-- The dictionary returned by `generate_response`. -/
structure Response where
  acknowledgment : String
  learning_tip : String
  suggested_activity : String
  learning_strategies : List String
  motivational_quote : String
  study_plan : StudyPlan
  confidence_note : String
deriving DecidableEq

/-- `EmpatheticRecommender.generate_response` (the unused optional
`mind_score` argument is kept for fidelity; the random source is the
injected `seed`). -/
def generate_response (emotion : String) (confidence : ℚ) (stress_level : String)
    (mind_score : Option ℚ) (seed : Nat) : Response :=
  let emotion := str_lower emotion
  let emotion_data := (emotion_responses.lookup emotion).getD neutral_responses
  let acknowledgment := choice emotion_data.acknowledgment seed
  let learning_tip := choice emotion_data.learning_tip seed
  let activity := choice emotion_data.activity seed
  let strategy_key := if stress_level ≠ "optimal" then stress_level ++ "_stress" else "optimal_flow"
  let pool := (learning_strategies.lookup strategy_key).getD moderate_stress_strategies
  let selected_strategies := sample pool (min 3 pool.length) seed
  let quote := choice motivational_quotes seed
  let study_plan := generate_study_plan emotion stress_level
  { acknowledgment := acknowledgment,
    learning_tip := learning_tip,
    suggested_activity := activity,
    learning_strategies := selected_strategies,
    motivational_quote := quote,
    study_plan := study_plan,
    confidence_note := get_confidence_note confidence }

/-- The recommendations added by `generate_wellness_recommendations` when
`mind_score < 40`. -/
def critical_band_recommendations : List String :=
  ["🆘 Consider taking a longer break (15-30 minutes)",
   "💬 Reach out to someone you trust",
   "🏥 If feelings persist, consider professional support",
   "🎯 Focus only on essential tasks today"]

/-- The recommendations added by `generate_wellness_recommendations` when
`40 ≤ mind_score < 60`. -/
def low_band_recommendations : List String :=
  ["🧘 Practice mindfulness or meditation",
   "💪 Light exercise can boost your mood",
   "📱 Limit screen time outside of necessary tasks",
   "😴 Ensure you\'re getting adequate sleep"]

/-- The recommendations added by `generate_wellness_recommendations` when
`mind_score ≥ 60`. -/
def upper_band_recommendations : List String :=
  ["🌟 Great mental state! Use it wisely",
   "🎯 This is ideal for tackling big goals",
   "🤝 Help others who might be struggling",
   "📚 Invest in long-term learning projects"]

/-- The `emotion_wellness` dictionary of `generate_wellness_recommendations`. -/
def emotion_wellness : List (String × List String) :=
  [("sadness", ["🌞 Get some sunlight or bright light exposure",
                "🎶 Listen to uplifting music"]),
   ("anger", ["🥊 Try physical exercise to release tension",
              "📝 Journal your thoughts"]),
   ("fear", ["🫂 Practice grounding techniques",
             "📖 Read something comforting"]),
   ("joy", ["📸 Capture this positive moment",
            "💝 Spread positivity to others"])]

/-- `EmpatheticRecommender.generate_wellness_recommendations` (the
`stress_level` argument is accepted but unused, as in the source). -/
def generate_wellness_recommendations (mind_score : ℚ) (emotion : String)
    (stress_level : String) : List String :=
  let recommendations :=
    if mind_score < 40 then critical_band_recommendations
    else if mind_score < 60 then low_band_recommendations
    else upper_band_recommendations
  let recommendations :=
    match emotion_wellness.lookup emotion with
    | some tips => recommendations ++ tips
    | none => recommendations
  recommendations.take 6

/-- `generate_encouragement`. -/
def generate_encouragement (mind_score : ℚ) : String :=
  if mind_score ≥ 80 then
    "You\'re doing amazingly well! Keep up this fantastic momentum! 🌟"
  else if mind_score ≥ 60 then
    "You\'re on a good path! Stay consistent and you\'ll see great results! 💪"
  else if mind_score ≥ 40 then
    "You\'re making progress! Every step forward counts! 🌱"
  else
    "Be gentle with yourself. Tomorrow is a new opportunity! 💙"

/-- The `emotion_data` dictionary consumed by `get_personalized_feedback`
and `combine_emotion_and_sentiment`: the keys read via `.get` are modelled
as optional fields. -/
structure EmotionAnalysis where
  dominant_emotion : Option String
  confidence : Option ℚ
  valence : Option ℚ
deriving DecidableEq

/-- The nested `mind_score` dictionary read by `get_personalized_feedback`. -/
structure MindScoreDict where
  mind_score : Option ℚ
deriving DecidableEq

/-- The `stress_data` dictionary consumed by `get_personalized_feedback`. -/
structure StressAnalysis where
  stress_level : Option String
  mind_score : Option MindScoreDict
deriving DecidableEq

/-- The `empathetic_response` part of the feedback package. -/
structure EmpatheticResponse where
  acknowledgment : String
  confidence_note : String
deriving DecidableEq

/-- The `learning_guidance` part of the feedback package. -/
structure LearningGuidance where
  tip : String
  strategies : List String
  study_plan : StudyPlan
deriving DecidableEq

/-- The `immediate_actions` part of the feedback package. -/
structure ImmediateActions where
  suggested_activity : String
  wellness_recommendations : List String
deriving DecidableEq

/-- The `motivation` part of the feedback package. -/
structure Motivation where
  quote : String
  encouragement : String
deriving DecidableEq

/-- The complete feedback package returned by `get_personalized_feedback`. -/
structure Feedback where
  empathetic_response : EmpatheticResponse
  learning_guidance : LearningGuidance
  immediate_actions : ImmediateActions
  motivation : Motivation
deriving DecidableEq

/-- `get_personalized_feedback`: defaults are applied exactly as the
source `.get` calls do. -/
def get_personalized_feedback (emotion_data : EmotionAnalysis)
    (stress_data : StressAnalysis) (seed : Nat) : Feedback :=
  let emotion := emotion_data.dominant_emotion.getD "neutral"
  let confidence := emotion_data.confidence.getD 0
  let stress_level := stress_data.stress_level.getD "moderate"
  let mind_score := ((stress_data.mind_score.getD { mind_score := none }).mind_score).getD 50
  let response := generate_response emotion confidence stress_level (some mind_score) seed
  let wellness_recs := generate_wellness_recommendations mind_score emotion stress_level
  { empathetic_response :=
      { acknowledgment := response.acknowledgment,
        confidence_note := response.confidence_note },
    learning_guidance :=
      { tip := response.learning_tip,
        strategies := response.learning_strategies,
        study_plan := response.study_plan },
    immediate_actions :=
      { suggested_activity := response.suggested_activity,
        wellness_recommendations := wellness_recs },
    motivation :=
      { quote := response.motivational_quote,
        encouragement := generate_encouragement mind_score } }

/-- Python substring test `sub in s`, on the underlying character lists. -/
def list_contains_sub (haystack needle : List Char) : Bool :=
  match haystack with
  | [] => needle.isEmpty
  | _ :: t => needle.isPrefixOf haystack || list_contains_sub t needle

/-- Python substring test `sub in s` for strings. -/
def str_contains (s sub : String) : Bool :=
  list_contains_sub s.data sub.data

/-- The `positive_emotions` set of `combine_emotion_and_sentiment`. -/
def positive_emotions : List String := ["joy", "surprise", "love"]

/-- The `negative_emotions` set of `combine_emotion_and_sentiment`. -/
def negative_emotions : List String := ["sadness", "anger", "fear", "disgust"]

/-- Python `round(q, 3)`. -/
def round3 (q : ℚ) : ℚ := (round (q * 1000) : ℤ) / 1000

/-- The `sentiment_data` dictionary consumed by `combine_emotion_and_sentiment`. -/
structure SentimentAnalysis where
  sentiment : Option String
  confidence : Option ℚ
deriving DecidableEq

/-- A labelled reading inside the combined-analysis result. -/
structure LabelledReading where
  label : String
  confidence : ℚ
deriving DecidableEq

/-- The dictionary returned by `combine_emotion_and_sentiment`. -/
structure CombinedAnalysis where
  emotion : LabelledReading
  sentiment : LabelledReading
  aligned : Bool
  overall_mood : ℚ
  interpretation : String
deriving DecidableEq

/-- `interpret_combined_analysis` from `text_sentiment.py`. -/
def interpret_combined_analysis (emotion sentiment : String) (aligned : Bool) : String :=
  if aligned then
    "Your " ++ emotion ++ " emotion aligns with " ++ sentiment ++
      " sentiment, indicating a clear emotional state."
  else
    "There\'s a complexity in your emotional state - feeling " ++ emotion ++
      " with " ++ sentiment ++ " undertones."

/-- `combine_emotion_and_sentiment` from `text_sentiment.py`. -/
def combine_emotion_and_sentiment (emotion_data : EmotionAnalysis)
    (sentiment_data : SentimentAnalysis) : CombinedAnalysis :=
  let emotion := emotion_data.dominant_emotion.getD "neutral"
  let emotion_confidence := emotion_data.confidence.getD 0
  let sentiment := sentiment_data.sentiment.getD "neutral"
  let sentiment_confidence := sentiment_data.confidence.getD 0
  let aligned : Bool :=
    if positive_emotions.contains emotion && str_contains (str_lower sentiment) "positive" then true
    else if negative_emotions.contains emotion && str_contains (str_lower sentiment) "negative" then true
    else if emotion == "neutral" && str_contains (str_lower sentiment) "neutral" then true
    else false
  let emotion_valence := emotion_data.valence.getD 0
  let sentiment_polarity : ℚ :=
    if str_contains (str_lower sentiment) "positive" then 1
    else if str_contains (str_lower sentiment) "negative" then -1
    else 0
  let sentiment_polarity := sentiment_polarity * sentiment_confidence
  let overall_mood := emotion_valence * 0.6 + sentiment_polarity * 0.4
  { emotion := { label := emotion, confidence := emotion_confidence },
    sentiment := { label := sentiment, confidence := sentiment_confidence },
    aligned := aligned,
    overall_mood := round3 overall_mood,
    interpretation := interpret_combined_analysis emotion sentiment aligned }

/-- The `mapping` dictionary of `map_facial_to_text_emotion` in
`emotion_detector.py`. -/
def facial_to_text_mapping : List (String × String) :=
  [("Happy", "joy"), ("Sad", "sadness"), ("Angry", "anger"),
   ("Fear", "fear"), ("Surprise", "surprise"), ("Disgust", "disgust"),
   ("Neutral", "neutral")]

/-- `map_facial_to_text_emotion` from `emotion_detector.py`. -/
def map_facial_to_text_emotion (facial_emotion : String) : String :=
  (facial_to_text_mapping.lookup facial_emotion).getD "neutral"

/-- The `combined_insights` dictionary built by the
`comprehensive_analysis` endpoint in `main.py`. -/
structure CombinedInsights where
  alignment : String
  interpretation : String
deriving DecidableEq

/-- The facial-versus-text alignment computation of `comprehensive_analysis`
in `main.py`: a lowercased string comparison of the two dominant labels. -/
def combined_insights (facial_emotion text_emotion : String) : CombinedInsights :=
  let alignment := if str_lower facial_emotion == str_lower text_emotion then "aligned" else "misaligned"
  { alignment := alignment,
    interpretation :=
      "Facial expression shows " ++ facial_emotion ++ " while text conveys " ++
        text_emotion ++ ". This " ++
        (if alignment == "aligned" then "confirms" else "suggests complexity in") ++
        " your emotional state." }

/-- Modelled from the spec: the MindScore categorisation implemented in
`ai_models/stress_analysis/predict.py`, which is not among the source
files here (only its callers are). The spec fixes the bands: below 40
critical, 40 to 59 low, 60 to 79 moderate, 80 and above good, each band
inclusive on its lower bound. -/
def mind_score_category (value : ℚ) : String :=
  if value < 40 then "critical"
  else if value < 60 then "low"
  else if value < 80 then "moderate"
  else "good"

/-- The score-tier wellness pools of `generate_wellness_recommendations`,
indexed by the spec's four MindScore bands: following the spec wording,
with the moderate and good bands drawing the same pool as the code does. -/
def tier_wellness_actions (category : String) : List String :=
  if category == "critical" then critical_band_recommendations
  else if category == "low" then low_band_recommendations
  else if category == "moderate" then upper_band_recommendations
  else upper_band_recommendations

/-- The encouragement message as a function of the MindScore band alone. -/
def tier_encouragement (category : String) : String :=
  if category == "good" then
    "You\'re doing amazingly well! Keep up this fantastic momentum! 🌟"
  else if category == "moderate" then
    "You\'re on a good path! Stay consistent and you\'ll see great results! 💪"
  else if category == "low" then
    "You\'re making progress! Every step forward counts! 🌱"
  else
    "Be gentle with yourself. Tomorrow is a new opportunity! 💙"

/-- The length of a sampled strategy list is the sample size capped by the
pool size. -/
lemma sample_length (l : List String) (k seed : Nat) :
    (sample l k seed).length = min k l.length := by
  unfold sample
  rcases Nat.eq_zero_or_pos l.length with h | h
  · rw [List.length_eq_zero] at h
    subst h
    simp
  · have hi : seed % l.length ≤ l.length := Nat.le_of_lt (Nat.mod_lt _ h)
    rw [List.length_take, List.length_append, List.length_drop, List.length_take]
    omega

/-- A key outside the key set of an association list is not found. -/
lemma lookup_eq_none_of_not_mem_keys {α β : Type} [BEq α] [LawfulBEq α]
    (l : List (α × β)) (k : α) (h : k ∉ l.map Prod.fst) : l.lookup k = none := by
  induction l with
  | nil => rfl
  | cons p t ih =>
    simp only [List.map_cons, List.mem_cons] at h
    push_neg at h
    rw [List.lookup]
    have hb : (k == p.1) = false := beq_eq_false_iff_ne.mpr h.1
    rw [hb]
    exact ih h.2

/-- Appending the same suffix to two strings is injective. -/
lemma append_right_cancel_str {s t u : String} (h : s ++ u = t ++ u) : s = t := by
  apply String.ext
  have hd := congrArg String.data h
  rw [String.data_append, String.data_append] at hd
  exact List.append_cancel_right hd

/-- The wellness recommendations factor through the spec MindScore band:
score-tier pool of the band, then the emotion bonus tips, truncated to 6. -/
lemma wellness_eq_spec (ms : ℚ) (e s : String) :
    generate_wellness_recommendations ms e s =
      (tier_wellness_actions (mind_score_category ms) ++
        ((emotion_wellness.lookup e).getD [])).take 6 := by
  unfold generate_wellness_recommendations tier_wellness_actions mind_score_category
  by_cases h1 : ms < 40
  · rw [if_pos h1, if_pos h1]
    cases emotion_wellness.lookup e <;> simp
  · rw [if_neg h1, if_neg h1]
    by_cases h2 : ms < 60
    · rw [if_pos h2, if_pos h2]
      cases emotion_wellness.lookup e <;> simp
    · rw [if_neg h2, if_neg h2]
      by_cases h3 : ms < 80
      · rw [if_pos h3]
        cases emotion_wellness.lookup e <;> simp
      · rw [if_neg h3]
        cases emotion_wellness.lookup e <;> simp

/-- The encouragement message factors through the spec MindScore band. -/
lemma encouragement_factor (v : ℚ) :
    generate_encouragement v = tier_encouragement (mind_score_category v) := by
  unfold generate_encouragement tier_encouragement mind_score_category
  by_cases h1 : v < 40
  · rw [if_pos h1, if_neg (by linarith), if_neg (by linarith), if_neg (by linarith)]
    rfl
  · rw [if_neg h1]
    by_cases h2 : v < 60
    · rw [if_pos h2, if_neg (by linarith), if_neg (by linarith), if_pos (by linarith)]
      rfl
    · rw [if_neg h2]
      by_cases h3 : v < 80
      · rw [if_pos h3, if_neg (by linarith), if_pos (by linarith)]
        rfl
      · rw [if_neg h3, if_pos (by linarith)]
        rfl

/-- Every stress key resolves to one of the four pools of five strategies,
falling back to the moderate pool. -/
lemma strategy_pool_length (key : String) :
    ((learning_strategies.lookup key).getD moderate_stress_strategies).length = 5 := by
  simp only [learning_strategies, List.lookup]
  repeat' split
  all_goals rfl

/-- Each score-tier wellness pool is non-empty. -/
lemma tier_wellness_actions_ne_nil (category : String) :
    tier_wellness_actions category ≠ [] := by
  unfold tier_wellness_actions
  repeat' split
  all_goals decide

/-- A stress key built by appending `_stress` never hits the flow pool key. -/
lemma stress_key_ne_optimal_flow (s : String) : s ++ "_stress" ≠ "optimal_flow" := by
  intro hh
  have hd : s.data ++ ("_stress" : String).data = ("optimal_flow" : String).data := by
    rw [← String.data_append, hh]
  have hlen : s.data.length = 5 := by
    have h7 : ("_stress" : String).data.length = 7 := by decide
    have h12 : ("optimal_flow" : String).data.length = 12 := by decide
    have hl := congrArg List.length hd
    rw [List.length_append, h7, h12] at hl
    omega
  have hsfx : ("_stress" : String).data = List.drop 5 (("optimal_flow" : String).data) := by
    rw [← hd, ← hlen, List.drop_left]
  exact absurd hsfx (by decide)

/-- Any stress level other than low, high and optimal resolves to the
moderate-stress strategy pool. -/
lemma strategy_pool_of_unlisted (stress_level : String)
    (h1 : stress_level ≠ "low") (h2 : stress_level ≠ "high") (h3 : stress_level ≠ "optimal") :
    ((learning_strategies.lookup
        (if stress_level ≠ "optimal" then stress_level ++ "_stress" else "optimal_flow")).getD
      moderate_stress_strategies) = moderate_stress_strategies := by
  rw [if_pos h3]
  by_cases hm : stress_level = "moderate"
  · subst hm; rfl
  · rw [lookup_eq_none_of_not_mem_keys]
    · rfl
    · simp only [learning_strategies, List.map_cons, List.map_nil, List.mem_cons,
        List.not_mem_nil, or_false, not_or]
      refine ⟨?_, ?_, ?_, stress_key_ne_optimal_flow stress_level⟩
      · intro hh
        exact h1 (append_right_cancel_str (u := "_stress") (hh.trans (by decide)))
      · intro hh
        exact hm (append_right_cancel_str (u := "_stress") (hh.trans (by decide)))
      · intro hh
        exact h2 (append_right_cancel_str (u := "_stress") (hh.trans (by decide)))

/-- A boolean if-chain that only sets the result to true is a disjunction. -/
lemma bool_chain_iff (a b c : Bool) :
    ((if a = true then true else if b = true then true else if c = true then true else false) = true) ↔
      (a = true ∨ b = true ∨ c = true) := by
  cases a <;> cases b <;> cases c <;> decide

/-- C1, counterexample: the facial-versus-text alignment of the
comprehensive endpoint on facial label Happy and text label joy reports
misaligned, not aligned, because it compares lowercased label strings
instead of mapping the vocabularies into shared buckets first. -/
theorem C1_counterexample :
    (combined_insights "Happy" "joy").alignment = "misaligned" := by decide

/-- C1, amended: the emotion-versus-sentiment detector
(`combine_emotion_and_sentiment`) reports aligned exactly when the
emotion is in the known positive set and the sentiment string contains
positive, or in the known negative set and the sentiment contains
negative, or the emotion is literally neutral and the sentiment contains
neutral; the facial-versus-text alignment of the comprehensive endpoint
reports aligned exactly when the lowercased label strings are equal — no
label-mapping table is applied there. -/
theorem C1_amended :
    (∀ (ed : EmotionAnalysis) (sd : SentimentAnalysis),
        (combine_emotion_and_sentiment ed sd).aligned = true ↔
          ((ed.dominant_emotion.getD "neutral") ∈ positive_emotions ∧
             str_contains (str_lower (sd.sentiment.getD "neutral")) "positive" = true) ∨
          ((ed.dominant_emotion.getD "neutral") ∈ negative_emotions ∧
             str_contains (str_lower (sd.sentiment.getD "neutral")) "negative" = true) ∨
          ((ed.dominant_emotion.getD "neutral") = "neutral" ∧
             str_contains (str_lower (sd.sentiment.getD "neutral")) "neutral" = true)) ∧
    (∀ facial text : String,
        (combined_insights facial text).alignment = "aligned" ↔ str_lower facial = str_lower text) := by
  constructor
  · intro ed sd
    simp only [combine_emotion_and_sentiment]
    rw [bool_chain_iff]
    simp [List.elem_iff, Bool.and_eq_true, beq_iff_eq, List.contains]
  · intro f t
    unfold combined_insights
    by_cases h : str_lower f == str_lower t
    · simp only [if_pos h]
      simpa using beq_iff_eq.mp h
    · simp only [if_neg h]
      constructor
      · intro hh; exact absurd hh (by decide)
      · intro hh; exact absurd (beq_iff_eq.mpr hh) h

/-- C2: the four MindScore bands are inclusive on each lower bound
(below 40 critical, 40 to 59 low, 60 to 79 moderate, 80 and above good),
and both score-tiered outputs of the pipeline — the encouragement message
and the wellness recommendations — branch only on these bands: equal
bands give equal outputs. -/
theorem C2_category_bands :
    (∀ v : ℚ, (v < 40 → mind_score_category v = "critical") ∧
      (40 ≤ v → v < 60 → mind_score_category v = "low") ∧
      (60 ≤ v → v < 80 → mind_score_category v = "moderate") ∧
      (80 ≤ v → mind_score_category v = "good")) ∧
    (∀ v w : ℚ, mind_score_category v = mind_score_category w →
      generate_encouragement v = generate_encouragement w ∧
      ∀ e s, generate_wellness_recommendations v e s = generate_wellness_recommendations w e s) := by
  constructor
  · intro v
    refine ⟨?_, ?_, ?_, ?_⟩
    · intro h; unfold mind_score_category; rw [if_pos h]
    · intro h1 h2; unfold mind_score_category; rw [if_neg (by linarith), if_pos h2]
    · intro h1 h2; unfold mind_score_category
      rw [if_neg (by linarith), if_neg (by linarith), if_pos h2]
    · intro h; unfold mind_score_category
      rw [if_neg (by linarith), if_neg (by linarith), if_neg (by linarith)]
  · intro v w h
    refine ⟨?_, fun e s => ?_⟩
    · rw [encouragement_factor, encouragement_factor, h]
    · rw [wellness_eq_spec, wellness_eq_spec, h]

/-- C2, witness: the exact boundary values 40, 60 and 80 land in the upper
band, and two scores inside the same band give the same encouragement. -/
theorem C2_witness :
    mind_score_category 40 = "low" ∧ mind_score_category 60 = "moderate" ∧
      mind_score_category 80 = "good" ∧
      generate_encouragement 45 = generate_encouragement 59 :=
  ⟨(C2_category_bands.1 40).2.1 (by norm_num) (by norm_num),
   (C2_category_bands.1 60).2.2.1 (by norm_num) (by norm_num),
   (C2_category_bands.1 80).2.2.2 (by norm_num),
   (C2_category_bands.2 45 59 (by norm_num [mind_score_category])).1⟩

/-- C3, counterexample: a call with both the emotion reading and the
stress reading missing does not fail — it produces a fully populated
feedback package (wellness recommendations of the default score 50 and a
non-empty strategies list), so no error is raised and a bundle is
produced. -/
theorem C3_counterexample :
    (get_personalized_feedback { dominant_emotion := none, confidence := none, valence := none }
        { stress_level := none, mind_score := none } 0).immediate_actions.wellness_recommendations =
      low_band_recommendations ∧
    (get_personalized_feedback { dominant_emotion := none, confidence := none, valence := none }
        { stress_level := none, mind_score := none } 0).learning_guidance.strategies ≠ [] := by
  decide

/-- C3, amended: a missing emotion or stress reading is not fatal — the
pipeline substitutes the defaults (emotion neutral with confidence 0,
stress level moderate with mind score 50) and produces the same complete
feedback package as an explicit call with those defaults. -/
theorem C3_amended :
    ∀ (sd : StressAnalysis) (ed : EmotionAnalysis) (seed : Nat),
      get_personalized_feedback { dominant_emotion := none, confidence := none, valence := none } sd seed =
        get_personalized_feedback
          { dominant_emotion := some "neutral", confidence := some 0, valence := none } sd seed ∧
      get_personalized_feedback ed { stress_level := none, mind_score := none } seed =
        get_personalized_feedback ed
          { stress_level := some "moderate", mind_score := some { mind_score := some 50 } } seed :=
  fun _ _ _ => ⟨rfl, rfl⟩

/-- C4, counterexample: a confidence of 3/2, outside [0,1], is not
rejected — `generate_response` returns a normal response whose confidence
note is the high-confidence phrasing. -/
theorem C4_counterexample :
    (generate_response "joy" (3 / 2) "low" none 0).confidence_note =
      "I\'m very confident about this assessment." := by
  simp only [generate_response]
  unfold get_confidence_note
  rw [if_pos (by norm_num)]

/-- C4, amended: out-of-range confidence is neither rejected nor clamped:
the raw value flows into the threshold step function, so any confidence
above 1 yields the high-confidence phrasing, any negative confidence
yields the uncertainty phrasing, and `generate_response` always embeds
exactly that note. -/
theorem C4_amended (c : ℚ) :
    ((1 < c → get_confidence_note c = "I\'m very confident about this assessment.") ∧
     (c < 0 →
       get_confidence_note c = "I\'m somewhat uncertain - please provide more context if needed.")) ∧
    ∀ (emotion stress_level : String) (mind_score : Option ℚ) (seed : Nat),
      (generate_response emotion c stress_level mind_score seed).confidence_note =
        get_confidence_note c := by
  refine ⟨⟨?_, ?_⟩, ?_⟩
  · intro h
    unfold get_confidence_note
    rw [if_pos (show c ≥ 0.8 from by linarith [(by norm_num : (0.8 : ℚ) ≤ 1)])]
  · intro h
    unfold get_confidence_note
    have h4 : ¬ c ≥ 0.4 := fun hc => absurd hc (by intro hcc; linarith [(by norm_num : (0 : ℚ) ≤ 0.4)])
    have h6 : ¬ c ≥ 0.6 := fun hc => absurd hc (by intro hcc; linarith [(by norm_num : (0 : ℚ) ≤ 0.6)])
    have h8 : ¬ c ≥ 0.8 := fun hc => absurd hc (by intro hcc; linarith [(by norm_num : (0 : ℚ) ≤ 0.8)])
    rw [if_neg h8, if_neg h6, if_neg h4]
  · intro e s ms seed
    simp only [generate_response]

/-- C4, witness: at the concrete out-of-range confidence 2 the note is
the high-confidence phrasing, not an error. -/
theorem C4_witness :
    get_confidence_note 2 = "I\'m very confident about this assessment." :=
  (C4_amended 2).1.1 (by norm_num)

/-- C5: for every mind score, emotion and stress level, the wellness
actions equal the score-tier pool of the MindScore band followed by the
emotion bonus tips (empty when the emotion has none), truncated from the
tail to at most six entries. -/
theorem C5_wellness_actions :
    ∀ (mind_score : ℚ) (emotion stress_level : String),
      generate_wellness_recommendations mind_score emotion stress_level =
        (tier_wellness_actions (mind_score_category mind_score) ++
          ((emotion_wellness.lookup emotion).getD [])).take 6 :=
  fun ms e s => wellness_eq_spec ms e s

/-- C6: for every emotion, confidence, stress level, optional mind score
and seed, the generated strategies list is non-empty, and for every score
the wellness recommendations are non-empty. -/
theorem C6_nonempty (emotion : String) (confidence : ℚ) (stress_level : String)
    (mind_score : Option ℚ) (seed : Nat) (score : ℚ) :
    (generate_response emotion confidence stress_level mind_score seed).learning_strategies ≠ [] ∧
    generate_wellness_recommendations score emotion stress_level ≠ [] := by
  constructor
  · have hlen :
        (generate_response emotion confidence stress_level mind_score seed).learning_strategies.length = 3 := by
      simp only [generate_response]
      rw [sample_length, strategy_pool_length]
      decide
    intro hnil
    rw [hnil] at hlen
    simp at hlen
  · rw [wellness_eq_spec]
    intro hnil
    rw [List.take_eq_nil_iff] at hnil
    rcases hnil with h6 | happ
    · exact absurd h6 (by norm_num)
    · rw [List.append_eq_nil] at happ
      exact tier_wellness_actions_ne_nil _ happ.1

/-- C7: the study-plan table is keyed by exactly the four curated
(emotion, stress level) tuples; every other combination falls back to the
always-present default plan; and (sadness, high) yields the short gentle
variant. -/
theorem C7_study_plan_table :
    study_plans.map Prod.fst =
      [("joy", "low"), ("sadness", "high"), ("anger", "high"), ("fear", "moderate")] ∧
    (∀ emotion stress_level : String,
        (emotion, stress_level) ∉ study_plans.map Prod.fst →
        generate_study_plan emotion stress_level = default_study_plan) ∧
    generate_study_plan "sadness" "high" =
      { duration := "15-20 minutes", approach := "Gentle review of familiar topics",
        breaks := "Frequent, every 15 minutes",
        recommendation := "Be kind to yourself. Small steps count." } := by
  refine ⟨rfl, ?_, by decide⟩
  intro e s h
  unfold generate_study_plan
  rw [lookup_eq_none_of_not_mem_keys _ _ h]
  rfl

/-- C7, witness: the uncurated combination (neutral, low) falls back to
the default plan. -/
theorem C7_witness :
    ("neutral", "low") ∉ study_plans.map Prod.fst ∧
      generate_study_plan "neutral" "low" = default_study_plan :=
  ⟨by decide, C7_study_plan_table.2.1 "neutral" "low" (by decide)⟩

/-- C8: unknown labels never raise and normalise to neutral or zero — an
unmapped facial emotion maps to neutral, a sentiment containing neither
positive nor negative contributes zero polarity to the overall mood, and
an emotion outside the response table produces exactly the neutral
response. -/
theorem C8_unknown_labels :
    (∀ facial : String, facial ∉ facial_to_text_mapping.map Prod.fst →
        map_facial_to_text_emotion facial = "neutral") ∧
    (∀ (ed : EmotionAnalysis) (sd : SentimentAnalysis),
        str_contains (str_lower (sd.sentiment.getD "neutral")) "positive" = false →
        str_contains (str_lower (sd.sentiment.getD "neutral")) "negative" = false →
        (combine_emotion_and_sentiment ed sd).overall_mood = round3 ((ed.valence.getD 0) * 0.6)) ∧
    (∀ emotion : String, str_lower emotion ∉ emotion_responses.map Prod.fst →
        ∀ (confidence : ℚ) (stress_level : String) (mind_score : Option ℚ) (seed : Nat),
          generate_response emotion confidence stress_level mind_score seed =
            generate_response "neutral" confidence stress_level mind_score seed) := by
  refine ⟨?_, ?_, ?_⟩
  · intro facial h
    unfold map_facial_to_text_emotion
    rw [lookup_eq_none_of_not_mem_keys _ _ h]
    rfl
  · intro ed sd hp hn
    simp only [combine_emotion_and_sentiment, hp, hn]
    norm_num
  · intro emotion h confidence stress_level mind_score seed
    have hkeys : str_lower emotion ≠ "joy" ∧ str_lower emotion ≠ "sadness" ∧
        str_lower emotion ≠ "anger" ∧ str_lower emotion ≠ "fear" ∧
        str_lower emotion ≠ "surprise" ∧ str_lower emotion ≠ "love" ∧
        str_lower emotion ≠ "neutral" ∧ str_lower emotion ≠ "disgust" := by
      simp only [emotion_responses, List.map_cons, List.map_nil, List.mem_cons,
        List.not_mem_nil, or_false, not_or] at h
      exact h
    have hlook : emotion_responses.lookup (str_lower emotion) = none :=
      lookup_eq_none_of_not_mem_keys _ _ h
    have hplan : study_plans.lookup (str_lower emotion, stress_level) = none := by
      apply lookup_eq_none_of_not_mem_keys
      simp only [study_plans, List.map_cons, List.map_nil, List.mem_cons,
        List.not_mem_nil, or_false, not_or]
      refine ⟨?_, ?_, ?_, ?_⟩ <;> intro hh
      · injection hh with hl hr; exact hkeys.1 hl
      · injection hh with hl hr; exact hkeys.2.1 hl
      · injection hh with hl hr; exact hkeys.2.2.1 hl
      · injection hh with hl hr; exact hkeys.2.2.2.1 hl
    have hplan2 : study_plans.lookup (("neutral" : String), stress_level) = none := by
      apply lookup_eq_none_of_not_mem_keys
      simp only [study_plans, List.map_cons, List.map_nil, List.mem_cons,
        List.not_mem_nil, or_false, not_or]
      refine ⟨?_, ?_, ?_, ?_⟩ <;> intro hh
      all_goals injection hh with hl hr
      all_goals exact absurd hl (by decide)
    simp only [generate_response, generate_study_plan, hlook, hplan, hplan2]
    rfl

/-- C8, witness: the facial label Confused is outside the mapping table
and maps to neutral. -/
theorem C8_witness :
    ("Confused" : String) ∉ facial_to_text_mapping.map Prod.fst ∧
      map_facial_to_text_emotion "Confused" = "neutral" :=
  ⟨by decide, C8_unknown_labels.1 "Confused" (by decide)⟩

/-- C9: on all of [0,1] the confidence note is the four-band step
function of the detection confidence — at least 0.8 high confidence,
at least 0.6 medium, at least 0.4 low, below 0.4 explicit uncertainty. -/
theorem C9_confidence_note_bands (c : ℚ) (h0 : 0 ≤ c) (h1 : c ≤ 1) :
    (0.8 ≤ c → get_confidence_note c = "I\'m very confident about this assessment.") ∧
    (0.6 ≤ c → c < 0.8 → get_confidence_note c = "This assessment seems reliable.") ∧
    (0.4 ≤ c → c < 0.6 →
      get_confidence_note c = "This is my best estimate - let me know if it feels off.") ∧
    (c < 0.4 →
      get_confidence_note c = "I\'m somewhat uncertain - please provide more context if needed.") := by
  refine ⟨?_, ?_, ?_, ?_⟩
  · intro h; unfold get_confidence_note; rw [if_pos h]
  · intro ha hb; unfold get_confidence_note; rw [if_neg (by linarith), if_pos ha]
  · intro ha hb; unfold get_confidence_note
    rw [if_neg (by linarith), if_neg (by linarith), if_pos ha]
  · intro h; unfold get_confidence_note
    rw [if_neg (by linarith), if_neg (by linarith), if_neg (by linarith)]

/-- C9, witness: at the concrete confidence 0.9 the note is the
high-confidence phrasing. -/
theorem C9_witness :
    (0 : ℚ) ≤ 0.9 ∧ (0.9 : ℚ) ≤ 1 ∧
      get_confidence_note 0.9 = "I\'m very confident about this assessment." :=
  ⟨by norm_num, by norm_num,
   (C9_confidence_note_bands 0.9 (by norm_num) (by norm_num)).1 (by norm_num)⟩

/-- C10: any stress level other than low, high and optimal — including
strings outside the documented enum — draws the learning strategies from
the moderate-stress pool, and the strategies field is populated with
exactly three entries. -/
theorem C10_fallback (stress_level : String) (h1 : stress_level ≠ "low")
    (h2 : stress_level ≠ "high") (h3 : stress_level ≠ "optimal")
    (emotion : String) (confidence : ℚ) (mind_score : Option ℚ) (seed : Nat) :
    (generate_response emotion confidence stress_level mind_score seed).learning_strategies =
      sample moderate_stress_strategies 3 seed ∧
    (generate_response emotion confidence stress_level mind_score seed).learning_strategies.length = 3 := by
  have hpool := strategy_pool_of_unlisted stress_level h1 h2 h3
  constructor
  · simp only [generate_response]
    rw [hpool, show (3 ⊓ moderate_stress_strategies.length) = 3 from by decide]
  · simp only [generate_response]
    rw [hpool, sample_length]
    decide

/-- C10, witness: the out-of-enum stress level unknown draws from the
moderate-stress pool. -/
theorem C10_witness :
    ("unknown" : String) ≠ "low" ∧
      (generate_response "joy" 0 "unknown" none 7).learning_strategies =
        sample moderate_stress_strategies 3 7 :=
  ⟨by decide, (C10_fallback "unknown" (by decide) (by decide) (by decide) "joy" 0 none 7).1⟩
